import Mathlib

/-!
Shallow embedding of the multipass host-resource provisioning layer
(src/utils/memory_size.cpp and
src/platform/backends/shared/linux/backend_utils.cpp), together with
theorems checking the natural-language specification against this code.
External collaborators (the D-Bus transport, the subprocess runner, the
Qt JSON library, the kernel device interface, the random source) are
modelled as explicit environment records supplying their observable
outcomes; the logic under verification is the control flow of the
repository around them. Functions that throw are modelled with Except;
observable side effects (bus calls, tool invocations, close calls, file
writes) are returned as explicit traces or updated state.
-/

/-! ## MemorySize (src/utils/memory_size.cpp) -/

def kilo : Int := 1024

def mega : Int := kilo * kilo

def giga : Int := mega * kilo

/-- Characters accepted by the [KMG] alternative of the size regular
expression, which is matched case-insensitively. -/
def isUnitChar (c : Char) : Bool :=
  c = 'K' || c = 'k' || c = 'M' || c = 'm' || c = 'G' || c = 'g'

/-- Characters accepted by the optional trailing B of the size regular
expression, matched case-insensitively. -/
def isBChar (c : Char) : Bool :=
  c = 'B' || c = 'b'

/-- Decimal value denoted by a digit string. -/
def digitsToNat (ds : List Char) : Nat :=
  ds.foldl (fun a c => 10 * a + (c.toNat - 48)) 0

/-- Largest value representable in a signed 64-bit integer (long long). -/
def i64Max : Nat := 9223372036854775807

/-- QString::toLongLong applied to a pure digit string: the decimal value
when it is representable as a long long, and 0 otherwise (Qt returns 0 when
the conversion fails, including on overflow). -/
def toLongLongOfDigits (ds : List Char) : Int :=
  if digitsToNat ds ≤ i64Max then (digitsToNat ds : Int) else 0

/-- Wrap-around of signed 64-bit two-complement arithmetic: what the
multiplications by the unit factors do in practice when they overflow. -/
def wrap64 (x : Int) : Int :=
  (x + 2 ^ 63) % 2 ^ 64 - 2 ^ 63

/-- Exact match of a character list against the size pattern: one or more
digits, an optional unit letter in [KMG] (any case), an optional trailing
b or B. Returns the digit capture and the unit capture on success. The
digit group is greedy; since neither a unit letter nor a b is a digit, the
maximal digit prefix is the only possible split, so takeWhile is a faithful
rendering of the regular-expression match. Digits are modelled as ASCII
digits. -/
def memMatch (cs : List Char) : Option (List Char × Option Char) :=
  let ds := cs.takeWhile Char.isDigit
  let rest := cs.dropWhile Char.isDigit
  if ds = [] then none
  else
    match rest with
    | [] => some (ds, none)
    | [c] =>
      if isUnitChar c then some (ds, some c)
      else if isBChar c then some (ds, none)
      else none
    | [c, d] => if isUnitChar c && isBChar d then some (ds, some c) else none
    | _ => none

/-- Multiplier selected by the switch on the lower-cased unit letter; the
default branch of the switch is unreachable for regex-accepted input and
leaves the value unchanged, modelled as factor 1. -/
def unitMultiplier (c : Char) : Int :=
  if c = 'g' || c = 'G' then giga
  else if c = 'm' || c = 'M' then mega
  else if c = 'k' || c = 'K' then kilo
  else 1

/-- The same multiplier as a natural number, lifted to the optional unit
capture (factor 1 when no unit letter is present). -/
def unitMultN : Option Char → Nat
  | none => 1
  | some c =>
    if c = 'g' || c = 'G' then 1073741824
    else if c = 'm' || c = 'M' then 1048576
    else if c = 'k' || c = 'K' then 1024
    else 1

/-- Model of the in_bytes helper of memory_size.cpp: empty input yields 0
bytes; input matching the size pattern yields its digit value (0 when out
of long-long range) times the unit multiplier; any other input raises
InvalidMemorySizeException, modelled as an error carrying the raw string. -/
def in_bytes (mem_value : String) : Except String Int :=
  if mem_value = "" then .ok 0
  else
    match memMatch mem_value.data with
    | some (ds, u) =>
      let val := toLongLongOfDigits ds
      .ok (match u with
           | some c => wrap64 (val * unitMultiplier c)
           | none => val)
    | none => .error mem_value

/-- MemorySize value type: an immutable signed 64-bit byte count. -/
structure MemorySize where
  bytes : Int
  deriving DecidableEq

/-- Model of the MemorySize constructor taking a string: a fallible parse
through in_bytes. -/
def MemorySize.parse (s : String) : Except String MemorySize :=
  (in_bytes s).map MemorySize.mk

def MemorySize.in_bytes (m : MemorySize) : Int := m.bytes

/-! ## Bridge provisioning (backend_utils.cpp, create_bridge_with) -/

/-- A QDBusError as observed by this code: whether it is valid and its
message text. -/
structure DBusError where
  valid : Bool
  msg : String
  deriving DecidableEq

/-- Cause text included in CreateBridgeException messages: the D-Bus error
message when the error is valid, "unknown cause" otherwise. -/
def DBusError.causeText (e : DBusError) : String :=
  if e.valid then e.msg else "unknown cause"

/-- Data carried by a CreateBridgeException: whether it arose during a
rollback, the detail string, and the D-Bus error cause. -/
structure CreateBridgeError where
  rollback : Bool
  detail : String
  cause : DBusError
  deriving DecidableEq

/-- Message formatted by the CreateBridgeException constructor. -/
def CreateBridgeError.what (e : CreateBridgeError) : String :=
  (if e.rollback then "Could not rollback bridge" else "Could not create bridge")
    ++ ". " ++ e.detail ++ ": " ++ e.cause.causeText

/-- Substring containment over character lists: the property behind the
contains checks on surfaced error messages. -/
def containsSub (hay needle : List Char) : Prop :=
  ∃ pre suf, hay = pre ++ needle ++ suf

def nm_bus_name : String := "org.freedesktop.NetworkManager"

def nm_root_obj : String := "/org/freedesktop/NetworkManager"

def nm_root_ifc : String := "org.freedesktop.NetworkManager"

def nm_settings_obj : String := "/org/freedesktop/NetworkManager/Settings"

def nm_settings_ifc : String := "org.freedesktop.NetworkManager.Settings"

def nm_connection_ifc : String := "org.freedesktop.NetworkManager.Settings.Connection"

def max_bridge_name_len : Nat := 15

/-- Values stored in the connection settings maps (strings or integers). -/
inductive SettingsVal where
  | str (s : String)
  | int (n : Int)
  deriving DecidableEq

abbrev VariantMap := List (String × SettingsVal)

abbrev VariantMapMap := List (String × VariantMap)

/-- Model of make_connection_settings: the settings payloads for the parent
bridge connection and for the child slave connection. -/
def make_connection_settings (parent_name child_name interface_name : String) :
    VariantMapMap × VariantMapMap :=
  ([("connection", [("type", .str "bridge"), ("id", .str parent_name),
                    ("autoconnect-slaves", .int 1)]),
    ("bridge", [("interface-name", .str parent_name)])],
   [("connection", [("id", .str child_name), ("type", .str "802-3-ethernet"),
                    ("slave-type", .str "bridge"), ("master", .str parent_name),
                    ("interface-name", .str interface_name),
                    ("autoconnect-priority", .int 10)])])

/-- Detail string of failed D-Bus calls (the error template used by
checked_dbus_call). -/
def dbusCallDetail (service object ifc method : String) : String :=
  "Failed DBus call. (Service: " ++ service ++ "; Object: " ++ object
    ++ "; Interface: " ++ ifc ++ "; Method: " ++ method ++ ")"

/-- One observable call on the system bus. Object paths are optional
strings, none standing for a null path. -/
inductive BusCall where
  | getInterfaceCall (object ifc : String)
  | addConnection (settings : VariantMapMap)
  | activateConnection (conn device specific : Option String)
  | deleteCall (path : String)
  deriving DecidableEq

/-- Environment of one create_bridge_with run: the observable behaviour of
the system bus for each call the function can make. -/
structure BusEnv where
  connected : Bool
  lastError : DBusError
  rootValid : Bool
  rootLastError : DBusError
  settingsValid : Bool
  settingsLastError : DBusError
  addParentReply : Except DBusError (Option String)
  addChildReply : Except DBusError (Option String)
  activateReply : Except DBusError (Option String)
  deleteReply : String → Except DBusError Unit

/-- Calls issued by the rollback guard of make_bridge_rollback_guard when
it fires with the given captured paths. The loop visits the child path
first and the parent path second, deleting each non-null path; a failing
Delete throws a CreateBridgeException (tagged as rollback) that escapes the
loop and is swallowed and logged by top_catch_all, so the remaining
iterations are skipped. -/
def rollback_calls (env : BusEnv) (parent_path child_path : Option String) :
    List BusCall :=
  let parentPart : List BusCall :=
    match parent_path with
    | some p => [.getInterfaceCall p nm_connection_ifc, .deleteCall p]
    | none => []
  match child_path with
  | some c =>
    [BusCall.getInterfaceCall c nm_connection_ifc, BusCall.deleteCall c] ++
      (match env.deleteReply c with
       | .ok _ => parentPart
       | .error _ => [])
  | none => parentPart

/-- Model of create_bridge_with: drives bridge provisioning against a bus
environment, returning the outcome (the first CreateBridgeException that
escapes, if any) and the ordered trace of bus calls, rollback included. -/
def create_bridge_with (env : BusEnv) (interface : String) :
    Except CreateBridgeError Unit × List BusCall :=
  if env.connected then
    let t1 := [BusCall.getInterfaceCall nm_root_obj nm_root_ifc]
    if env.rootValid then
      let t2 := t1 ++ [BusCall.getInterfaceCall nm_settings_obj nm_settings_ifc]
      if env.settingsValid then
        let parent_name := ("br-" ++ interface).take max_bridge_name_len
        let child_name := parent_name ++ "-child"
        let args := make_connection_settings parent_name child_name interface
        let t3 := t2 ++ [BusCall.addConnection args.1]
        match env.addParentReply with
        | .error e =>
          (.error ⟨false, dbusCallDetail nm_bus_name nm_settings_obj nm_settings_ifc
                     "AddConnection", e⟩,
           t3 ++ rollback_calls env none none)
        | .ok parent_path =>
          let t4 := t3 ++ [BusCall.addConnection args.2]
          match env.addChildReply with
          | .error e =>
            (.error ⟨false, dbusCallDetail nm_bus_name nm_settings_obj nm_settings_ifc
                       "AddConnection", e⟩,
             t4 ++ rollback_calls env parent_path none)
          | .ok child_path =>
            let t5 := t4 ++ [BusCall.activateConnection child_path (some "/") (some "/")]
            match env.activateReply with
            | .error e =>
              (.error ⟨false, dbusCallDetail nm_bus_name nm_root_obj nm_root_ifc
                         "ActivateConnection", e⟩,
               t5 ++ rollback_calls env parent_path child_path)
            | .ok _ => (.ok (), t5)
      else (.error ⟨false, "Could not reach remote D-Bus object", env.settingsLastError⟩, t2)
    else (.error ⟨false, "Could not reach remote D-Bus object", env.rootLastError⟩, t1)
  else (.error ⟨false, "Failed to connect to D-Bus system bus", env.lastError⟩, [])

/-- Trace of the successful bus calls leading up to (and including) the
ActivateConnection attempt, for an interface and the returned child path. -/
def preRollbackTrace (interface c : String) : List BusCall :=
  let parent_name := ("br-" ++ interface).take max_bridge_name_len
  let child_name := parent_name ++ "-child"
  let args := make_connection_settings parent_name child_name interface
  [.getInterfaceCall nm_root_obj nm_root_ifc,
   .getInterfaceCall nm_settings_obj nm_settings_ifc,
   .addConnection args.1, .addConnection args.2,
   .activateConnection (some c) (some "/") (some "/")]

/-! ## Image preparation (backend_utils.cpp, resize and convert) -/

/-- Outcome of one run of the external qemu-img tool: the collaborator
ProcessState together with the captured streams. -/
structure ProcOutcome where
  success : Bool
  failureMessage : String
  stdout : String
  stderr : String
  deriving DecidableEq

/-- Bound under which a tool invocation executes: either plain execute()
with no timeout argument, or execute(image_resize_timeout). -/
inductive ExecBound where
  | unbounded
  | resizeTimeout
  deriving DecidableEq

/-- One invocation of the external image tool: argument list and bound. -/
structure ToolInvocation where
  args : List String
  bound : ExecBound
  deriving DecidableEq

/-- Model of resize_instance_image: one tool invocation with arguments
resize, the image path and the decimal byte count, bounded by the resize
timeout; a non-successful completion throws an error carrying the failure
message and the captured standard error. -/
def resize_instance_image (disk_space : MemorySize) (image_path : String)
    (outcome : ProcOutcome) : Except String Unit × ToolInvocation :=
  let inv : ToolInvocation :=
    ⟨["resize", image_path, toString disk_space.in_bytes], .resizeTimeout⟩
  if outcome.success then (.ok (), inv)
  else
    (.error ("Cannot resize instance image: qemu-img failed ("
              ++ outcome.failureMessage ++ ") with output:\n" ++ outcome.stderr), inv)

/-- Environment of convert_to_qcow_if_necessary: the outcomes of the info
and convert invocations, and the format field read from the info output.
jsonFormatField models the external Qt JSON library composition used by the
code (fromJson, object, bracket access, toString): an arbitrary function of
the captured stdout, which returns the empty string for malformed JSON or a
missing field, so the branch logic is verified for every parse result. -/
structure ImgEnv where
  infoOutcome : ProcOutcome
  convertOutcome : ProcOutcome
  jsonFormatField : String → String

/-- Model of convert_to_qcow_if_necessary: probe the image format with an
unbounded info invocation; when the format field equals raw, convert under
the resize timeout and return the qcow2 path; otherwise return the original
path; a failed invocation throws an error carrying the failure message and
the captured standard error. -/
def convert_to_qcow_if_necessary (env : ImgEnv) (image_path : String) :
    Except String String × List ToolInvocation :=
  let qcow2_path := image_path ++ ".qcow2"
  let infoInv : ToolInvocation := ⟨["info", "--output=json", image_path], .unbounded⟩
  if env.infoOutcome.success then
    if env.jsonFormatField env.infoOutcome.stdout = "raw" then
      let convertInv : ToolInvocation :=
        ⟨["convert", "-p", "-O", "qcow2", image_path, qcow2_path], .resizeTimeout⟩
      if env.convertOutcome.success then (.ok qcow2_path, [infoInv, convertInv])
      else
        (.error ("Failed to convert image format: qemu-img failed ("
                  ++ env.convertOutcome.failureMessage ++ ") with output:\n"
                  ++ env.convertOutcome.stderr), [infoInv, convertInv])
    else (.ok image_path, [infoInv])
  else
    (.error ("Cannot read image format: qemu-img failed ("
              ++ env.infoOutcome.failureMessage ++ ") with output:\n"
              ++ env.infoOutcome.stderr), [infoInv])

/-! ## Subnet allocation (backend_utils.cpp, generate_random_subnet and
get_subnet) -/

/-- Whether the first list is a prefix of the second. -/
def isPrefixList : List Char → List Char → Bool
  | [], _ => true
  | _ :: _, [] => false
  | a :: as, b :: bs => a = b && isPrefixList as bs

/-- Whether the first list occurs as a contiguous sublist of the second
(the semantics of QString::contains). -/
def isSubList (needle : List Char) : List Char → Bool
  | [] => isPrefixList needle []
  | b :: bs => isPrefixList needle (b :: bs) || isSubList needle bs

/-- Environment of the subnet allocator: the current output of the route
listing command, the outcome of ping probes per address, and the stream of
random octet pairs produced by the uniform distribution over [0, 255]. -/
structure SubnetEnv where
  routeOutput : String
  reach : String → Bool
  draws : Nat → Fin 256 × Fin 256

/-- Model of subnet_used_locally: the route listing output contains the
subnet prefix as a substring. -/
def subnet_used_locally (env : SubnetEnv) (subnet : String) : Bool :=
  isSubList subnet.data env.routeOutput.data

/-- Model of can_reach_gateway: the status of the ping probe on ip. -/
def can_reach_gateway (env : SubnetEnv) (ip : String) : Bool :=
  env.reach ip

def subnet_exhausted_msg : String := "Could not determine a subnet for networking."

/-- The candidate prefix formed from one pair of random octets. -/
def subnetCandidate (d : Fin 256 × Fin 256) : String :=
  "10." ++ toString d.1.val ++ "." ++ toString d.2.val

/-- The bounded candidate search of generate_random_subnet: iteration i
draws a candidate and accepts it unless the route listing already shows it
or one of the gateway probes on its .1 and .254 addresses succeeds. -/
def generate_subnet_loop (env : SubnetEnv) : Nat → Nat → Except String String
  | _, 0 => .error subnet_exhausted_msg
  | i, Nat.succ fuel =>
    let subnet := subnetCandidate (env.draws i)
    if subnet_used_locally env subnet then generate_subnet_loop env (i + 1) fuel
    else if can_reach_gateway env (subnet ++ ".1") then generate_subnet_loop env (i + 1) fuel
    else if can_reach_gateway env (subnet ++ ".254") then generate_subnet_loop env (i + 1) fuel
    else .ok subnet

/-- Model of generate_random_subnet: up to 100 candidate draws. -/
def generate_random_subnet (env : SubnetEnv) : Except String String :=
  generate_subnet_loop env 0 100

/-- A candidate is rejected when the route listing shows it or one of its
gateway probes succeeds. -/
def rejectedCandidate (env : SubnetEnv) (d : Fin 256 × Fin 256) : Bool :=
  subnet_used_locally env (subnetCandidate d)
    || can_reach_gateway env (subnetCandidate d ++ ".1")
    || can_reach_gateway env (subnetCandidate d ++ ".254")

/-- Split of a character list on a separator, keeping empty fields (the
semantics of QString::split on one character). -/
def splitOnChar (sep : Char) : List Char → List (List Char)
  | [] => [[]]
  | c :: rest =>
    let r := splitOnChar sep rest
    if c = sep then [] :: r
    else
      match r with
      | f :: more => (c :: f) :: more
      | [] => [[c]]

/-- Join of field lists with a separator character. -/
def joinWith (sep : Char) : List (List Char) → List Char
  | [] => []
  | [f] => f
  | f :: g :: rest => f ++ sep :: joinWith sep (g :: rest)

/-- Model of QString::section with separator dot and field range 0 to 2:
the first three dot-separated fields, joined with dots again. -/
def qsection3 (cs : List Char) : List Char :=
  joinWith '.' ((splitOnChar '.' cs).take 3)

/-- Model of virtual_switch_subnet: the first line of the route listing
containing bridge_name yields its first three dot-fields; with no such
line, the null QString converts to the empty string. -/
def virtual_switch_subnet (routeOutput : String) (bridge_name : String) : List Char :=
  match (splitOnChar '\n' routeOutput.data).find? (fun l => isSubList bridge_name.data l) with
  | some line => qsection3 line
  | none => []

/-- Whitespace trimming at both ends (QString::trimmed). -/
def trimChars (cs : List Char) : List Char :=
  ((cs.dropWhile Char.isWhitespace).reverse.dropWhile Char.isWhitespace).reverse

/-- Model of get_subnet. The persistence file is passed as its optional
current content (none when absent) and the content after the call is
returned alongside the result; opening with ReadWrite creates an empty
file, so a missing file behaves as empty content for the size check. -/
def get_subnet (env : SubnetEnv) (fileContent : Option String) (bridge_name : String) :
    Except String String × Option String :=
  let subnet := virtual_switch_subnet env.routeOutput bridge_name
  if subnet = [] then
    let content := fileContent.getD ""
    if content.data ≠ [] then (.ok (String.mk (trimChars content.data)), some content)
    else
      match generate_random_subnet env with
      | .ok s => (.ok s, some s)
      | .error e => (.error e, some content)
  else (.ok (String.mk subnet), fileContent)

/-! ## Hardware probe (backend_utils.cpp, check_if_kvm_is_in_use) -/

def EBUSY : Nat := 16

def EBADF : Nat := 9

/-- Environment of check_if_kvm_is_in_use: the descriptor returned by
opening the kvm device node (none when the open fails and returns -1), and
the outcome of the KVM_CREATE_VM ioctl on a successfully opened
descriptor, as its return value and the errno it leaves. A failed open
makes the subsequent ioctl on descriptor -1 fail with EBADF. close is
modelled as leaving errno unchanged: it only touches errno on failure, and
the one close before the errno test either succeeds (valid descriptor) or
fails with the same EBADF the ioctl already left (descriptor -1). -/
structure KvmEnv where
  openResult : Option Nat
  ioctlOutcome : Nat → Int × Nat

/-- The descriptor value the code works with (-1 on open failure). -/
def kvm_fd_of (env : KvmEnv) : Int :=
  match env.openResult with
  | some fd => (fd : Int)
  | none => -1

/-- Return value and errno of the KVM_CREATE_VM probe. -/
def kvm_probe (env : KvmEnv) : Int × Nat :=
  match env.openResult with
  | some fd => env.ioctlOutcome fd
  | none => (-1, EBADF)

def kvm_busy_msg : String :=
  "Another virtual machine manager is currently running. Please shut it down before starting a Multipass instance."

/-- Model of check_if_kvm_is_in_use, returning the outcome and the ordered
list of descriptors passed to close. The device descriptor is closed right
after the probe, before the busy check; the probe return value is closed
only on the non-throwing path. -/
def check_if_kvm_is_in_use (env : KvmEnv) : Except String Unit × List Int :=
  let fd := kvm_fd_of env
  let ret := (kvm_probe env).1
  let errnoAfter := (kvm_probe env).2
  if ret = -1 ∧ errnoAfter = EBUSY then (.error kvm_busy_msg, [fd])
  else (.ok (), [fd, ret])

/-! ## Concrete environments used to instantiate the theorems below -/

/-- Bus environment in which both AddConnection calls succeed, activation
fails, and every Delete call fails. -/
def busEnvDelFail : BusEnv :=
  { connected := true
    lastError := ⟨false, ""⟩
    rootValid := true
    rootLastError := ⟨false, ""⟩
    settingsValid := true
    settingsLastError := ⟨false, ""⟩
    addParentReply := .ok (some "/parent/path")
    addChildReply := .ok (some "/child/path")
    activateReply := .error ⟨true, "activation failed"⟩
    deleteReply := fun _ => .error ⟨true, "delete failed"⟩ }

/-- Same bus environment with succeeding Delete calls. -/
def busEnvDelOk : BusEnv :=
  { busEnvDelFail with deleteReply := fun _ => .ok () }

/-- Bus environment with a disconnected system bus. -/
def busEnvDown : BusEnv :=
  { busEnvDelFail with connected := false, lastError := ⟨true, "DBus error msg"⟩ }

/-- Image environment whose info probe reports a qcow2 image. -/
def imgEnvQcow : ImgEnv :=
  { infoOutcome := ⟨true, "", "some json", ""⟩
    convertOutcome := ⟨true, "", "", ""⟩
    jsonFormatField := fun _ => "qcow2" }

/-- Subnet environment with an empty route listing and failing probes. -/
def subnetEnvFree : SubnetEnv := ⟨"", fun _ => false, fun _ => (42, 17)⟩

/-- Subnet environment whose route listing names the bridge br-eth0. -/
def subnetEnvRoute : SubnetEnv :=
  ⟨"10.7.9.0/24 dev br-eth0 proto kernel scope link", fun _ => false, fun _ => (42, 17)⟩

/-- Kvm environment where the probe reports the device busy. -/
def kvmEnvBusy : KvmEnv := ⟨some 3, fun _ => (-1, EBUSY)⟩

/-- Kvm environment where the device node cannot be opened. -/
def kvmEnvNoOpen : KvmEnv := ⟨none, fun _ => (0, 0)⟩

/-! ## Helper lemmas -/

theorem unit_char_not_digit {c : Char} (h : isUnitChar c = true) : c.isDigit = false := by
  simp only [isUnitChar, Bool.or_eq_true, decide_eq_true_eq] at h
  rcases h with ((((h | h) | h) | h) | h) | h <;> subst h <;> decide

theorem bchar_not_digit {c : Char} (h : isBChar c = true) : c.isDigit = false := by
  simp only [isBChar, Bool.or_eq_true, decide_eq_true_eq] at h
  rcases h with h | h <;> subst h <;> decide

theorem bchar_not_unit {c : Char} (h : isBChar c = true) : isUnitChar c = false := by
  simp only [isBChar, Bool.or_eq_true, decide_eq_true_eq] at h
  rcases h with h | h <;> subst h <;> decide

theorem takeWhile_append_all {p : Char → Bool} (ds rest : List Char)
    (hds : ∀ c ∈ ds, p c = true) (hrest : ∀ c ∈ rest, p c = false) :
    (ds ++ rest).takeWhile p = ds ∧ (ds ++ rest).dropWhile p = rest := by
  induction ds with
  | nil =>
    simp only [List.nil_append]
    cases rest with
    | nil => simp
    | cons r rs =>
      have hr : p r = false := hrest r (List.mem_cons_self r rs)
      constructor
      · simp [List.takeWhile_cons, hr]
      · simp [List.dropWhile_cons, hr]
  | cons d dsx ih =>
    have hd : p d = true := hds d (List.mem_cons_self d dsx)
    have ih2 := ih (fun c hc => hds c (List.mem_cons_of_mem d hc))
    constructor
    · simp [List.takeWhile_cons, hd, ih2.1]
    · simp [List.dropWhile_cons, hd, ih2.2]

/-- A digit string followed by an optional unit letter and an optional
trailing b is matched by the size pattern, capturing exactly those parts. -/
theorem memMatch_split (ds : List Char) (hne : ds ≠ []) (hdig : ∀ c ∈ ds, c.isDigit = true)
    (u : Option Char) (hu : ∀ c ∈ u, isUnitChar c = true)
    (b : Option Char) (hb : ∀ c ∈ b, isBChar c = true) :
    memMatch (ds ++ u.toList ++ b.toList) = some (ds, u) := by
  have hrest : ∀ c ∈ u.toList ++ b.toList, c.isDigit = false := by
    intro c hc
    rcases List.mem_append.mp hc with h | h
    · rcases u with _ | cu
      · simp [Option.toList] at h
      · simp [Option.toList] at h
        subst h
        exact unit_char_not_digit (hu c rfl)
    · rcases b with _ | cb
      · simp [Option.toList] at h
      · simp [Option.toList] at h
        subst h
        exact bchar_not_digit (hb c rfl)
  have hsplit := takeWhile_append_all ds (u.toList ++ b.toList) hdig hrest
  simp only [memMatch]
  rw [List.append_assoc, hsplit.1, hsplit.2, if_neg hne]
  rcases u with _ | cu <;> rcases b with _ | cb
  · rfl
  · have h1 : isUnitChar cb = false := bchar_not_unit (hb cb rfl)
    have h2 : isBChar cb = true := hb cb rfl
    simp [Option.toList, h1, h2]
  · have h1 : isUnitChar cu = true := hu cu rfl
    simp [Option.toList, h1]
  · have h1 : isUnitChar cu = true := hu cu rfl
    have h2 : isBChar cb = true := hb cb rfl
    simp [Option.toList, h1, h2]

theorem wrap64_eq_self {x : Int} (h0 : 0 ≤ x) (h1 : x ≤ 9223372036854775807) :
    wrap64 x = x := by
  have h63 : (2 : Int) ^ 63 = 9223372036854775808 := by norm_num
  have h64 : (2 : Int) ^ 64 = 18446744073709551616 := by norm_num
  unfold wrap64
  rw [h63, h64, Int.emod_eq_of_lt (by omega) (by omega)]
  omega

theorem unitMultiplier_cast (c : Char) :
    ((unitMultN (some c) : Nat) : Int) = unitMultiplier c := by
  simp only [unitMultiplier, unitMultN, giga, mega, kilo]
  split_ifs <;> norm_num

theorem one_le_unitMultN (u : Option Char) : 1 ≤ unitMultN u := by
  rcases u with _ | c
  · simp [unitMultN]
  · simp only [unitMultN]
    split_ifs <;> norm_num

/-! ## MemorySize claims -/

/-- C7 counterexample: the claim fails as universally stated, because the
20-digit input 99999999999999999999 matches the grammar but parses to 0
bytes (the string-to-long-long conversion overflows and yields 0), not to
99999999999999999999 times 1. -/
theorem memorysize_parse_counterexample :
    in_bytes "99999999999999999999" = .ok 0
    ∧ (0 : Int) ≠ (99999999999999999999 : Int) * 1 :=
  ⟨rfl, by decide⟩

/-- C7 (amended): for every digit string whose value times the binary unit
multiplier (1, 1024, 1024 squared or 1024 cubed for no unit, K, M, G in any
case, with or without a trailing b or B) stays within the signed 64-bit
range, parsing yields exactly that product of bytes; parsing the empty
string yields exactly 0 bytes; parsing the non-conforming string abc fails
with the invalid-memory-size parse error. -/
theorem memorysize_parse_valid_forms
    (ds : List Char) (hne : ds ≠ []) (hdig : ∀ c ∈ ds, c.isDigit = true)
    (u : Option Char) (hu : ∀ c ∈ u, isUnitChar c = true)
    (b : Option Char) (hb : ∀ c ∈ b, isBChar c = true)
    (hrange : digitsToNat ds * unitMultN u ≤ i64Max) :
    in_bytes (String.mk (ds ++ u.toList ++ b.toList))
      = .ok ((digitsToNat ds * unitMultN u : Nat) : Int)
    ∧ in_bytes "" = .ok 0
    ∧ in_bytes "abc" = .error "abc" := by
  refine ⟨?_, rfl, rfl⟩
  have hnat : digitsToNat ds ≤ i64Max :=
    le_trans (Nat.le_mul_of_pos_right _ (one_le_unitMultN u)) hrange
  have hsne : String.mk (ds ++ u.toList ++ b.toList) ≠ "" := by
    intro h
    have hd : ds ++ u.toList ++ b.toList = [] := congrArg String.data h
    rw [List.append_eq_nil, List.append_eq_nil] at hd
    exact hne hd.1.1
  have hm := memMatch_split ds hne hdig u hu b hb
  have hdata : (String.mk (ds ++ u.toList ++ b.toList)).data = ds ++ u.toList ++ b.toList := rfl
  simp only [in_bytes, if_neg hsne, hdata, hm]
  rcases u with _ | cu
  · simp only [toLongLongOfDigits, if_pos hnat, unitMultN, Nat.mul_one]
  · simp only [toLongLongOfDigits, if_pos hnat]
    have hcast : ((unitMultN (some cu) : Nat) : Int) = unitMultiplier cu := unitMultiplier_cast cu
    rw [← hcast, ← Nat.cast_mul]
    rw [wrap64_eq_self (by positivity) (by exact_mod_cast hrange)]

/-- C7 witness: the amended theorem applied to the input 3G. -/
theorem memorysize_parse_valid_forms_witness :
    in_bytes (String.mk (['3'] ++ (some 'G').toList ++ (none : Option Char).toList))
      = .ok ((digitsToNat ['3'] * unitMultN (some 'G') : Nat) : Int)
    ∧ in_bytes "" = .ok 0
    ∧ in_bytes "abc" = .error "abc" :=
  memorysize_parse_valid_forms ['3'] (by decide) (by decide) (some 'G') (by decide)
    none (by decide) (by decide)

/-- C8 counterexample: the non-empty digitless input K fails with the parse
error, so the leading digits are not optional. -/
theorem memorysize_digits_required_counterexample :
    ("K" : String) ≠ "" ∧ in_bytes "K" = .error "K" :=
  ⟨by decide, rfl⟩

/-- C8 (amended): the leading digits are required: every non-empty input
consisting only of an optional unit letter and an optional trailing b or B,
with no digits, fails with the invalid-memory-size parse error. -/
theorem memorysize_unit_only_fails
    (u : Option Char) (hu : ∀ c ∈ u, isUnitChar c = true)
    (b : Option Char) (hb : ∀ c ∈ b, isBChar c = true)
    (hne : u.toList ++ b.toList ≠ []) :
    in_bytes (String.mk (u.toList ++ b.toList))
      = .error (String.mk (u.toList ++ b.toList)) := by
  have hrest : ∀ c ∈ u.toList ++ b.toList, c.isDigit = false := by
    intro c hc
    rcases List.mem_append.mp hc with h | h
    · rcases u with _ | cu
      · simp [Option.toList] at h
      · simp [Option.toList] at h
        subst h
        exact unit_char_not_digit (hu c rfl)
    · rcases b with _ | cb
      · simp [Option.toList] at h
      · simp [Option.toList] at h
        subst h
        exact bchar_not_digit (hb c rfl)
  have hsne : String.mk (u.toList ++ b.toList) ≠ "" := by
    intro h
    exact hne (congrArg String.data h)
  have htake : (u.toList ++ b.toList).takeWhile Char.isDigit = [] := by
    cases h : u.toList ++ b.toList with
    | nil => simp
    | cons c cs =>
      have hc : c.isDigit = false := hrest c (h ▸ List.mem_cons_self c cs)
      simp [List.takeWhile_cons, hc]
  have hdata : (String.mk (u.toList ++ b.toList)).data = u.toList ++ b.toList := rfl
  simp only [in_bytes, if_neg hsne, memMatch, hdata, htake]
  simp

/-- C8 witness: the amended theorem applied to the input K. -/
theorem memorysize_unit_only_fails_witness :
    in_bytes (String.mk ((some 'K').toList ++ (none : Option Char).toList))
      = .error (String.mk ((some 'K').toList ++ (none : Option Char).toList)) :=
  memorysize_unit_only_fails (some 'K') (by decide) none (by decide) (by decide)

/-- C10: the input 99999999999999999999G matches the accepted grammar, its
digit sequence exceeds the signed 64-bit range, and parsing does not fail:
the out-of-range conversion yields 0, so the constructed MemorySize equals
0 bytes instead of raising a parse error. -/
theorem memorysize_overflow_yields_zero :
    (memMatch "99999999999999999999G".data).isSome = true
    ∧ digitsToNat "99999999999999999999".data > i64Max
    ∧ MemorySize.parse "99999999999999999999G" = .ok ⟨0⟩ :=
  ⟨rfl, by decide, rfl⟩

/-! ## Bridge provisioning claims -/

/-- C1 counterexample: the claim fails as universally stated: in an
execution where both AddConnection calls succeed, activation fails and the
Delete of the child connection fails, the rollback never invokes Delete on
the parent connection (the exception from the child Delete escapes the
rollback loop and is swallowed as a whole), while the surfaced error is
still the original activation failure. -/
theorem create_bridge_rollback_order_counterexample :
    (create_bridge_with busEnvDelFail "eth0").1
      = .error ⟨false, dbusCallDetail nm_bus_name nm_root_obj nm_root_ifc "ActivateConnection",
                 ⟨true, "activation failed"⟩⟩
    ∧ BusCall.deleteCall "/child/path" ∈ (create_bridge_with busEnvDelFail "eth0").2
    ∧ BusCall.deleteCall "/parent/path" ∉ (create_bridge_with busEnvDelFail "eth0").2 :=
  ⟨rfl, by decide, by decide⟩

/-- C1 (amended): when both AddConnection calls succeed with non-null paths
and ActivateConnection fails, the surfaced error is the original activation
failure, tagged as a create failure, regardless of any rollback outcome;
the rollback invokes Delete on the child connection first, and Delete on
the parent connection follows exactly when the child Delete succeeds (a
failing delete is swallowed and only logged, but aborts the remaining
rollback deletes). -/
theorem create_bridge_rollback_behaviour
    (env : BusEnv) (interface : String) (p c : String) (e : DBusError)
    (hcon : env.connected = true) (hroot : env.rootValid = true)
    (hset : env.settingsValid = true)
    (hp : env.addParentReply = .ok (some p))
    (hc : env.addChildReply = .ok (some c))
    (ha : env.activateReply = .error e) :
    (create_bridge_with env interface).1
      = .error ⟨false, dbusCallDetail nm_bus_name nm_root_obj nm_root_ifc "ActivateConnection", e⟩
    ∧ (env.deleteReply c = .ok () →
        (create_bridge_with env interface).2
          = preRollbackTrace interface c
            ++ [.getInterfaceCall c nm_connection_ifc, .deleteCall c,
                .getInterfaceCall p nm_connection_ifc, .deleteCall p])
    ∧ (∀ e2, env.deleteReply c = .error e2 →
        (create_bridge_with env interface).2
          = preRollbackTrace interface c
            ++ [.getInterfaceCall c nm_connection_ifc, .deleteCall c]) := by
  refine ⟨?_, ?_, ?_⟩
  · simp only [create_bridge_with, hcon, hroot, hset, hp, hc, ha, if_true]
  · intro hdel
    simp only [create_bridge_with, hcon, hroot, hset, hp, hc, ha, if_true]
    simp [rollback_calls, hdel, preRollbackTrace]
  · intro e2 hdel
    simp only [create_bridge_with, hcon, hroot, hset, hp, hc, ha, if_true]
    simp [rollback_calls, hdel, preRollbackTrace]

/-- C1 witness: the amended theorem applied to a bus environment whose
Delete calls succeed: both deletes happen, child before parent. -/
theorem create_bridge_rollback_behaviour_witness :
    (create_bridge_with busEnvDelOk "eth0").1
      = .error ⟨false, dbusCallDetail nm_bus_name nm_root_obj nm_root_ifc "ActivateConnection",
                 ⟨true, "activation failed"⟩⟩
    ∧ (create_bridge_with busEnvDelOk "eth0").2
      = preRollbackTrace "eth0" "/child/path"
        ++ [.getInterfaceCall "/child/path" nm_connection_ifc, .deleteCall "/child/path",
            .getInterfaceCall "/parent/path" nm_connection_ifc, .deleteCall "/parent/path"] :=
  let h := create_bridge_rollback_behaviour busEnvDelOk "eth0" "/parent/path" "/child/path"
    ⟨true, "activation failed"⟩ rfl rfl rfl rfl rfl rfl
  ⟨h.1, h.2.1 rfl⟩

theorem what_data_false (detail : String) (cause : DBusError) :
    (CreateBridgeError.mk false detail cause).what.data
      = "Could not create bridge".data ++ ". ".data ++ detail.data ++ ": ".data
        ++ cause.causeText.data := by
  simp [CreateBridgeError.what, String.data_append]

/-- C2: when the system bus reports itself disconnected, create_bridge_with
fails with an error whose message contains Could not create bridge and
Failed to connect and ends with the cause text of the bus (its own error
message, or unknown cause when the bus error is invalid), and no further
bus call of any kind is made. -/
theorem create_bridge_disconnected
    (env : BusEnv) (interface : String) (h : env.connected = false) :
    (create_bridge_with env interface).1
      = .error ⟨false, "Failed to connect to D-Bus system bus", env.lastError⟩
    ∧ (create_bridge_with env interface).2 = []
    ∧ containsSub
        (CreateBridgeError.mk false "Failed to connect to D-Bus system bus" env.lastError).what.data
        "Could not create bridge".data
    ∧ containsSub
        (CreateBridgeError.mk false "Failed to connect to D-Bus system bus" env.lastError).what.data
        "Failed to connect".data
    ∧ containsSub
        (CreateBridgeError.mk false "Failed to connect to D-Bus system bus" env.lastError).what.data
        env.lastError.causeText.data := by
  refine ⟨?_, ?_, ?_, ?_, ?_⟩
  · simp [create_bridge_with, h]
  · simp [create_bridge_with, h]
  · refine ⟨[], ". ".data ++ "Failed to connect to D-Bus system bus".data ++ ": ".data
      ++ env.lastError.causeText.data, ?_⟩
    rw [what_data_false]
    simp [List.append_assoc]
  · refine ⟨"Could not create bridge".data ++ ". ".data,
      " to D-Bus system bus".data ++ ": ".data ++ env.lastError.causeText.data, ?_⟩
    rw [what_data_false]
    have hsplit : ("Failed to connect to D-Bus system bus").data
        = "Failed to connect".data ++ " to D-Bus system bus".data := by decide
    rw [hsplit]
    simp [List.append_assoc]
  · refine ⟨"Could not create bridge".data ++ ". ".data
      ++ "Failed to connect to D-Bus system bus".data ++ ": ".data, [], ?_⟩
    rw [what_data_false]
    simp [List.append_assoc]

/-- C2 witness: the theorem applied to a disconnected bus environment. -/
theorem create_bridge_disconnected_witness :
    (create_bridge_with busEnvDown "eth0").1
      = .error ⟨false, "Failed to connect to D-Bus system bus", busEnvDown.lastError⟩
    ∧ (create_bridge_with busEnvDown "eth0").2 = []
    ∧ containsSub
        (CreateBridgeError.mk false "Failed to connect to D-Bus system bus" busEnvDown.lastError).what.data
        "Could not create bridge".data
    ∧ containsSub
        (CreateBridgeError.mk false "Failed to connect to D-Bus system bus" busEnvDown.lastError).what.data
        "Failed to connect".data
    ∧ containsSub
        (CreateBridgeError.mk false "Failed to connect to D-Bus system bus" busEnvDown.lastError).what.data
        busEnvDown.lastError.causeText.data :=
  create_bridge_disconnected busEnvDown "eth0" rfl

/-! ## Image preparation claims -/

/-- C3: when the info invocation succeeds and the format field read from
its output differs from raw (malformed JSON included, since the Qt parse of
malformed output yields an empty string), the original path is returned and
the tool is invoked exactly once; when the format is raw and the convert
invocation succeeds, the qcow2 path is returned and the tool is invoked
exactly twice; a failing info or convert invocation fails with an error
carrying the tool failure message and the captured standard error. -/
theorem convert_to_qcow_behaviour (env : ImgEnv) (image_path : String) :
    (env.infoOutcome.success = true →
      env.jsonFormatField env.infoOutcome.stdout ≠ "raw" →
        (convert_to_qcow_if_necessary env image_path).1 = .ok image_path
        ∧ (convert_to_qcow_if_necessary env image_path).2
          = [⟨["info", "--output=json", image_path], .unbounded⟩]
        ∧ (convert_to_qcow_if_necessary env image_path).2.length = 1)
    ∧ (env.infoOutcome.success = true →
       env.jsonFormatField env.infoOutcome.stdout = "raw" →
       env.convertOutcome.success = true →
        (convert_to_qcow_if_necessary env image_path).1 = .ok (image_path ++ ".qcow2")
        ∧ (convert_to_qcow_if_necessary env image_path).2
          = [⟨["info", "--output=json", image_path], .unbounded⟩,
             ⟨["convert", "-p", "-O", "qcow2", image_path, image_path ++ ".qcow2"],
              .resizeTimeout⟩]
        ∧ (convert_to_qcow_if_necessary env image_path).2.length = 2)
    ∧ (env.infoOutcome.success = false →
        (convert_to_qcow_if_necessary env image_path).1
          = .error ("Cannot read image format: qemu-img failed ("
              ++ env.infoOutcome.failureMessage ++ ") with output:\n"
              ++ env.infoOutcome.stderr)
        ∧ (convert_to_qcow_if_necessary env image_path).2.length = 1)
    ∧ (env.infoOutcome.success = true →
       env.jsonFormatField env.infoOutcome.stdout = "raw" →
       env.convertOutcome.success = false →
        (convert_to_qcow_if_necessary env image_path).1
          = .error ("Failed to convert image format: qemu-img failed ("
              ++ env.convertOutcome.failureMessage ++ ") with output:\n"
              ++ env.convertOutcome.stderr)
        ∧ (convert_to_qcow_if_necessary env image_path).2.length = 2) := by
  refine ⟨?_, ?_, ?_, ?_⟩
  · intro h1 h2
    refine ⟨?_, ?_, ?_⟩ <;> simp [convert_to_qcow_if_necessary, h1, h2]
  · intro h1 h2 h3
    refine ⟨?_, ?_, ?_⟩ <;> simp [convert_to_qcow_if_necessary, h1, h2, h3]
  · intro h1
    refine ⟨?_, ?_⟩ <;> simp [convert_to_qcow_if_necessary, h1]
  · intro h1 h2 h3
    refine ⟨?_, ?_⟩ <;> simp [convert_to_qcow_if_necessary, h1, h2, h3]

/-- C3 witness: the theorem applied to an environment reporting a qcow2
image: one invocation, original path returned. -/
theorem convert_to_qcow_behaviour_witness :
    (convert_to_qcow_if_necessary imgEnvQcow "/fake/img/path").1 = .ok "/fake/img/path"
    ∧ (convert_to_qcow_if_necessary imgEnvQcow "/fake/img/path").2
      = [⟨["info", "--output=json", "/fake/img/path"], .unbounded⟩]
    ∧ (convert_to_qcow_if_necessary imgEnvQcow "/fake/img/path").2.length = 1 :=
  (convert_to_qcow_behaviour imgEnvQcow "/fake/img/path").1 rfl (by decide)

/-- C4: resize_instance_image invokes the tool exactly once, with arguments
resize, the image path, and the decimal byte count of the target
MemorySize, under the fixed resize timeout; a successful completion returns
success and any other completion fails with an error carrying the tool
failure message and the captured standard error; the byte count rendered
for a 3G target is the literal 3221225472. -/
theorem resize_instance_image_behaviour (disk_space : MemorySize) (image_path : String)
    (outcome : ProcOutcome) :
    (resize_instance_image disk_space image_path outcome).2
      = ⟨["resize", image_path, toString disk_space.in_bytes], .resizeTimeout⟩
    ∧ (outcome.success = true →
        (resize_instance_image disk_space image_path outcome).1 = .ok ())
    ∧ (outcome.success = false →
        (resize_instance_image disk_space image_path outcome).1
          = .error ("Cannot resize instance image: qemu-img failed ("
              ++ outcome.failureMessage ++ ") with output:\n" ++ outcome.stderr))
    ∧ MemorySize.parse "3G" = .ok ⟨3221225472⟩
    ∧ toString (MemorySize.mk 3221225472).in_bytes = "3221225472" := by
  refine ⟨?_, ?_, ?_, rfl, rfl⟩
  · simp only [resize_instance_image]
    split <;> rfl
  · intro h
    simp [resize_instance_image, h]
  · intro h
    simp [resize_instance_image, h]

/-- C4 witness: the theorem applied to a successful resize of a 3G image. -/
theorem resize_instance_image_behaviour_witness :
    (resize_instance_image ⟨3221225472⟩ "/fake/img/path" ⟨true, "", "", ""⟩).2
      = ⟨["resize", "/fake/img/path", toString (MemorySize.mk 3221225472).in_bytes],
         .resizeTimeout⟩
    ∧ (resize_instance_image ⟨3221225472⟩ "/fake/img/path" ⟨true, "", "", ""⟩).1 = .ok () :=
  let h := resize_instance_image_behaviour ⟨3221225472⟩ "/fake/img/path" ⟨true, "", "", ""⟩
  ⟨h.1, h.2.1 rfl⟩

/-! ## Subnet allocation claims -/

theorem generate_subnet_loop_ok (env : SubnetEnv) :
    ∀ fuel i s, generate_subnet_loop env i fuel = .ok s →
      ∃ j, s = subnetCandidate (env.draws j)
        ∧ subnet_used_locally env s = false
        ∧ can_reach_gateway env (s ++ ".1") = false
        ∧ can_reach_gateway env (s ++ ".254") = false := by
  intro fuel
  induction fuel with
  | zero => intro i s h; simp [generate_subnet_loop] at h
  | succ n ih =>
    intro i s h
    simp only [generate_subnet_loop] at h
    by_cases h1 : subnet_used_locally env (subnetCandidate (env.draws i)) = true
    · rw [if_pos h1] at h
      exact ih (i + 1) s h
    · rw [if_neg h1] at h
      by_cases h2 : can_reach_gateway env (subnetCandidate (env.draws i) ++ ".1") = true
      · rw [if_pos h2] at h
        exact ih (i + 1) s h
      · rw [if_neg h2] at h
        by_cases h3 : can_reach_gateway env (subnetCandidate (env.draws i) ++ ".254") = true
        · rw [if_pos h3] at h
          exact ih (i + 1) s h
        · rw [if_neg h3] at h
          cases h
          exact ⟨i, rfl, Bool.not_eq_true _ ▸ h1, Bool.not_eq_true _ ▸ h2,
            Bool.not_eq_true _ ▸ h3⟩

theorem generate_subnet_loop_error (env : SubnetEnv) :
    ∀ fuel i m, generate_subnet_loop env i fuel = .error m →
      m = subnet_exhausted_msg
      ∧ ∀ k, k < fuel → rejectedCandidate env (env.draws (i + k)) = true := by
  intro fuel
  induction fuel with
  | zero =>
    intro i m h
    simp only [generate_subnet_loop] at h
    cases h
    exact ⟨rfl, fun k hk => absurd hk (Nat.not_lt_zero k)⟩
  | succ n ih =>
    intro i m h
    simp only [generate_subnet_loop] at h
    by_cases h1 : subnet_used_locally env (subnetCandidate (env.draws i)) = true
    · rw [if_pos h1] at h
      obtain ⟨hm, hall⟩ := ih (i + 1) m h
      refine ⟨hm, fun k hk => ?_⟩
      cases k with
      | zero => simp [rejectedCandidate, h1]
      | succ k' =>
        have harith : i + (k' + 1) = (i + 1) + k' := by omega
        rw [harith]
        exact hall k' (by omega)
    · rw [if_neg h1] at h
      by_cases h2 : can_reach_gateway env (subnetCandidate (env.draws i) ++ ".1") = true
      · rw [if_pos h2] at h
        obtain ⟨hm, hall⟩ := ih (i + 1) m h
        refine ⟨hm, fun k hk => ?_⟩
        cases k with
        | zero => simp [rejectedCandidate, h2]
        | succ k' =>
          have harith : i + (k' + 1) = (i + 1) + k' := by omega
          rw [harith]
          exact hall k' (by omega)
      · rw [if_neg h2] at h
        by_cases h3 : can_reach_gateway env (subnetCandidate (env.draws i) ++ ".254") = true
        · rw [if_pos h3] at h
          obtain ⟨hm, hall⟩ := ih (i + 1) m h
          refine ⟨hm, fun k hk => ?_⟩
          cases k with
          | zero => simp [rejectedCandidate, h3]
          | succ k' =>
            have harith : i + (k' + 1) = (i + 1) + k' := by omega
            rw [harith]
            exact hall k' (by omega)
        · rw [if_neg h3] at h
          cases h

/-- C5: generate_random_subnet either returns a prefix of the form 10.A.B
with octets A and B in [0, 255] for which the routing-table check reports
the prefix unused and both gateway probes on its .1 and .254 addresses
fail, or fails with the subnet-exhausted error after exactly 100 candidate
draws each rejected by one of those three checks; in particular it never
returns a prefix present in the route listing nor one with a succeeding
gateway probe. -/
theorem generate_random_subnet_correct (env : SubnetEnv) :
    (∀ s, generate_random_subnet env = .ok s →
      ∃ a b : Fin 256,
        s = "10." ++ toString a.val ++ "." ++ toString b.val
        ∧ subnet_used_locally env s = false
        ∧ can_reach_gateway env (s ++ ".1") = false
        ∧ can_reach_gateway env (s ++ ".254") = false)
    ∧ (∀ m, generate_random_subnet env = .error m →
        m = subnet_exhausted_msg
        ∧ ∀ k, k < 100 → rejectedCandidate env (env.draws k) = true) := by
  constructor
  · intro s h
    obtain ⟨j, hs, h1, h2, h3⟩ := generate_subnet_loop_ok env 100 0 s h
    exact ⟨(env.draws j).1, (env.draws j).2, by simpa [subnetCandidate] using hs, h1, h2, h3⟩
  · intro m h
    obtain ⟨hm, hall⟩ := generate_subnet_loop_error env 100 0 m h
    exact ⟨hm, fun k hk => by simpa using hall k hk⟩

/-- C5 witness: the theorem applied to an environment with a free first
candidate, which the allocator returns. -/
theorem generate_random_subnet_correct_witness :
    ∃ a b : Fin 256,
      "10.42.17" = "10." ++ toString a.val ++ "." ++ toString b.val
      ∧ subnet_used_locally subnetEnvFree "10.42.17" = false
      ∧ can_reach_gateway subnetEnvFree ("10.42.17" ++ ".1") = false
      ∧ can_reach_gateway subnetEnvFree ("10.42.17" ++ ".254") = false :=
  (generate_random_subnet_correct subnetEnvFree).1 "10.42.17" rfl

theorem splitOnChar_ne_nil (sep : Char) (cs : List Char) : splitOnChar sep cs ≠ [] := by
  cases cs with
  | nil => simp [splitOnChar]
  | cons c rest =>
    simp only [splitOnChar]
    split
    · simp
    · split <;> simp

theorem qsection3_ne_nil {cs : List Char} (h : cs ≠ []) : qsection3 cs ≠ [] := by
  cases cs with
  | nil => exact absurd rfl h
  | cons c rest =>
    unfold qsection3
    cases hr : splitOnChar '.' rest with
    | nil => exact absurd hr (splitOnChar_ne_nil _ _)
    | cons f more =>
      simp only [splitOnChar, hr]
      by_cases hc : c = '.'
      · rw [if_pos hc]
        cases more <;> simp [joinWith]
      · rw [if_neg hc]
        cases more with
        | nil => simp [joinWith]
        | cons g gs => cases gs <;> simp [joinWith]

theorem string_data_ne_nil {s : String} (h : s ≠ "") : s.data ≠ [] := by
  intro hd
  apply h
  cases s with
  | mk data => simp only at hd; subst hd; rfl

/-- C6: get_subnet observes a strict priority: when a route line names the
bridge, its extracted three-octet prefix is returned and the persistence
file is untouched; otherwise, when the persistence file is present with
non-empty content, that content (whitespace-trimmed, as QFile reading with
trimmed does; the persisted format is exactly the prefix string, with no
surrounding whitespace) is returned; otherwise a freshly generated random
subnet is returned and is written to the persistence file before
returning. -/
theorem get_subnet_priority (env : SubnetEnv) (fileContent : Option String)
    (bridge_name : String) (hbn : bridge_name ≠ "") :
    (∀ line, (splitOnChar '\n' env.routeOutput.data).find?
        (fun l => isSubList bridge_name.data l) = some line →
      get_subnet env fileContent bridge_name
        = (.ok (String.mk (qsection3 line)), fileContent))
    ∧ (∀ c, virtual_switch_subnet env.routeOutput bridge_name = [] →
        fileContent = some c → c ≠ "" →
        get_subnet env fileContent bridge_name
          = (.ok (String.mk (trimChars c.data)), some c))
    ∧ (∀ s, virtual_switch_subnet env.routeOutput bridge_name = [] →
        (fileContent = none ∨ fileContent = some "") →
        generate_random_subnet env = .ok s →
        get_subnet env fileContent bridge_name = (.ok s, some s)) := by
  refine ⟨?_, ?_, ?_⟩
  · intro line hfind
    have hpred : isSubList bridge_name.data line = true := List.find?_some hfind
    have hline : line ≠ [] := by
      intro he
      subst he
      cases hbd : bridge_name.data with
      | nil => exact string_data_ne_nil hbn hbd
      | cons a as => rw [hbd] at hpred; simp [isSubList, isPrefixList] at hpred
    have hq : qsection3 line ≠ [] := qsection3_ne_nil hline
    have hvs : virtual_switch_subnet env.routeOutput bridge_name = qsection3 line := by
      simp [virtual_switch_subnet, hfind]
    simp [get_subnet, hvs, hq]
  · intro c hvs hfc hcne
    have hcd : c.data ≠ [] := string_data_ne_nil hcne
    simp [get_subnet, hvs, hfc, hcd]
  · intro s hvs hfc hgen
    rcases hfc with hfc | hfc <;> simp [get_subnet, hvs, hfc, hgen]

/-- C6 witness: the theorem applied to the three concrete situations: a
route naming the bridge, a persisted subnet, and a fresh allocation. -/
theorem get_subnet_priority_witness :
    get_subnet subnetEnvRoute (some "persisted") "br-eth0"
      = (.ok (String.mk (qsection3 "10.7.9.0/24 dev br-eth0 proto kernel scope link".data)),
         some "persisted")
    ∧ get_subnet subnetEnvFree (some "10.33.44") "br-eth0"
      = (.ok (String.mk (trimChars "10.33.44".data)), some "10.33.44")
    ∧ get_subnet subnetEnvFree none "br-eth0" = (.ok "10.42.17", some "10.42.17") := by
  refine ⟨?_, ?_, ?_⟩
  · exact (get_subnet_priority subnetEnvRoute (some "persisted") "br-eth0" (by decide)).1
      "10.7.9.0/24 dev br-eth0 proto kernel scope link".data rfl
  · exact (get_subnet_priority subnetEnvFree (some "10.33.44") "br-eth0" (by decide)).2.1
      "10.33.44" rfl rfl (by decide)
  · exact (get_subnet_priority subnetEnvFree none "br-eth0" (by decide)).2.2
      "10.42.17" rfl (Or.inl rfl) rfl

/-! ## Hardware probe claim -/

/-- C9: check_if_kvm_is_in_use fails with the accelerator-busy error
exactly when the exclusive-use ioctl probe returns -1 with errno EBUSY; in
every other outcome, including when the device node cannot be opened at
all, it returns success; and the device descriptor the code opened is the
first descriptor closed on every exit path, in particular it is closed
before the error is raised on the failing path. -/
theorem check_kvm_in_use_correct (env : KvmEnv) :
    ((check_if_kvm_is_in_use env).1 = .error kvm_busy_msg
      ↔ (kvm_probe env).1 = -1 ∧ (kvm_probe env).2 = EBUSY)
    ∧ (env.openResult = none → (check_if_kvm_is_in_use env).1 = .ok ())
    ∧ ((check_if_kvm_is_in_use env).2.head? = some (kvm_fd_of env))
    ∧ (∀ e, (check_if_kvm_is_in_use env).1 = .error e →
        e = kvm_busy_msg ∧ (check_if_kvm_is_in_use env).2 = [kvm_fd_of env]) := by
  by_cases hcond : (kvm_probe env).1 = -1 ∧ (kvm_probe env).2 = EBUSY
  · refine ⟨?_, ?_, ?_, ?_⟩
    · simp [check_if_kvm_is_in_use, hcond]
    · intro hopen
      exfalso
      rw [show kvm_probe env = (-1, EBADF) from by simp [kvm_probe, hopen]] at hcond
      simp [EBADF, EBUSY] at hcond
    · simp [check_if_kvm_is_in_use, hcond]
    · intro e he
      simp only [check_if_kvm_is_in_use, if_pos hcond] at he
      cases he
      simp [check_if_kvm_is_in_use, hcond]
  · refine ⟨?_, ?_, ?_, ?_⟩
    · simp [check_if_kvm_is_in_use, hcond]
    · intro _
      simp [check_if_kvm_is_in_use, hcond]
    · simp [check_if_kvm_is_in_use, hcond]
    · intro e he
      simp [check_if_kvm_is_in_use, hcond] at he

/-- C9 witness: the theorem applied to a busy device and to a device that
cannot be opened. -/
theorem check_kvm_in_use_correct_witness :
    (check_if_kvm_is_in_use kvmEnvBusy).1 = .error kvm_busy_msg
    ∧ (check_if_kvm_is_in_use kvmEnvNoOpen).1 = .ok ()
    ∧ (check_if_kvm_is_in_use kvmEnvBusy).2 = [kvm_fd_of kvmEnvBusy] := by
  have h1 := (check_kvm_in_use_correct kvmEnvBusy).1.mpr (by decide)
  have h2 := (check_kvm_in_use_correct kvmEnvNoOpen).2.1 rfl
  have h3 := (check_kvm_in_use_correct kvmEnvBusy).2.2.2 kvm_busy_msg h1
  exact ⟨h1, h2, h3.2⟩
